import Mathlib

/-!
Verification development for the task-list / comment subsystem of the
kanban-mcp-planka-v2 adapter (`src/operations/tasks.ts`, which contains the
task-list module and the comment module).

The remote request gateway (`plankaRequest`) is an external collaborator: it
is modelled as a parameter `env : Request → Except String JVal` mapping each
issued HTTP request to either a decoded JSON value or a failure message.
Every operation is embedded as a Lean function that returns its result
together with the ordered list of requests it issued (its trace), and —
where the module-level `taskCardIdMap` is involved — the updated map,
threaded explicitly.

JavaScript dynamic values are embedded as the inductive `JVal`, with the
source's property accesses, truthiness tests and `||` defaults reproduced
operation by operation.
-/

/-- Embedding of the JavaScript/JSON values the module manipulates.
`undefined` is JavaScript `undefined` (absent property), distinct from JSON
`null`. Numbers are modelled as integers: every numeric value the module
itself produces (positions `65535 * (i+1)`) is an integer. -/
inductive JVal where
  | undefined : JVal
  | null : JVal
  | bool : Bool → JVal
  | num : Int → JVal
  | str : String → JVal
  | arr : List JVal → JVal
  | obj : List (String × JVal) → JVal

namespace JVal

/-- JavaScript property access `x.k`: throws a `TypeError` on `undefined`
and `null`, yields the field on objects (or `undefined` when absent), and
yields `undefined` on every other value. -/
def get : JVal → String → Except String JVal
  | .undefined, k => .error ("TypeError: Cannot read properties of undefined (reading " ++ k ++ ")")
  | .null, k => .error ("TypeError: Cannot read properties of null (reading " ++ k ++ ")")
  | .obj fs, k => .ok ((fs.lookup k).getD .undefined)
  | _, _ => .ok .undefined

/-- Optional-chaining access `x?.k`: like `get` but short-circuiting to
`undefined` on `undefined`/`null` instead of throwing. -/
def getOpt : JVal → String → JVal
  | .obj fs, k => (fs.lookup k).getD .undefined
  | _, _ => .undefined

/-- JavaScript truthiness. -/
def truthy : JVal → Bool
  | .undefined => false
  | .null => false
  | .bool b => b
  | .num n => n != 0
  | .str s => s ≠ ""
  | .arr _ => true
  | .obj _ => true

/-- JavaScript string coercion as used for template interpolation and
property keys (ids in practice are strings). -/
def toKey : JVal → String
  | .undefined => "undefined"
  | .null => "null"
  | .bool b => if b then "true" else "false"
  | .num n => toString n
  | .str s => s
  | .arr _ => ""
  | .obj _ => "[object Object]"

end JVal

/-- One HTTP request issued through the gateway: path, method, and the JSON
body (`none` when the call passes no body). -/
structure Request where
  path : String
  method : String
  body : Option JVal

/-- The external gateway capability (`plankaRequest`): each request either
returns decoded JSON or raises with a message. -/
abbrev Gateway := Request → Except String JVal

/-- The module-level `taskCardIdMap` (task-list id → card id), embedded as
an association list where insertion prepends, so `List.lookup` finds the
most recent binding (last writer wins). -/
abbrev TCMap := List (String × String)

/-- Result of a task-module operation that may touch `taskCardIdMap`:
the returned value (or raised message), the map after the call, and the
ordered trace of requests issued. -/
structure TOut (α : Type) where
  result : Except String α
  tmap : TCMap
  trace : List Request

/-- The request issued by `createTask` (task-list creation):
`POST /api/cards/:cardId/task-lists` with body `{ name, position }`. -/
def createTLReq (cardId name : String) (position : Int) : Request :=
  ⟨"/api/cards/" ++ cardId ++ "/task-lists", "POST",
    some (.obj [("name", .str name), ("position", .num position)])⟩

/-- `createTask` (source: task-list creation). Defaults `position` to
`65535`, issues the POST, records `response.item.id → cardId` in the map
when `response.item` and its `id` are truthy, returns `response.item`
unvalidated; any failure is wrapped with the `Failed to create task list:`
prefix. -/
def createTask (env : Gateway) (m : TCMap) (cardId name : String)
    (position : Option Int) : TOut JVal :=
  let req := createTLReq cardId name (position.getD 65535)
  match env req with
  | .error e => ⟨.error ("Failed to create task list: " ++ e), m, [req]⟩
  | .ok response =>
    match response.get "item" with
    | .error e => ⟨.error ("Failed to create task list: " ++ e), m, [req]⟩
    | .ok item =>
      if item.truthy then
        match item.get "id" with
        | .error e => ⟨.error ("Failed to create task list: " ++ e), m, [req]⟩
        | .ok idv =>
          if idv.truthy then ⟨.ok item, (idv.toKey, cardId) :: m, [req]⟩
          else ⟨.ok item, m, [req]⟩
      else ⟨.ok item, m, [req]⟩

/-- One element of the `tasks` array accepted by `batchCreateTasks`
(`CreateTaskSchema`): card id, name, optional numeric position. -/
structure CreateTaskOptions where
  cardId : String
  name : String
  position : Option Int
deriving DecidableEq

/-- JavaScript falsiness of the `position` field as tested by
`if (!task.position)`: `undefined` (absent) and `0` are falsy. -/
def posFalsy : Option Int → Bool
  | none => true
  | some p => p == 0

/-- The in-place position defaulting the batch loop performs on the `i`-th
(0-based) task before calling `createTask`: a falsy position is overwritten
with `65535 * (i + 1)`. -/
def normTask (i : Nat) (t : CreateTaskOptions) : CreateTaskOptions :=
  if posFalsy t.position then { t with position := some (65535 * ((i : Int) + 1)) } else t

/-- One entry of the `results` array of `batchCreateTasks`: a success
carrying the created value, or a failure carrying `{ message }`. -/
inductive ItemOutcome where
  | success : JVal → ItemOutcome
  | failure : String → ItemOutcome

/-- One entry of the `failures` array of `batchCreateTasks`: the index in
the input array, the (mutated) task object, and the error message. -/
structure TaskError where
  index : Nat
  task : CreateTaskOptions
  error : String

/-- The value returned by `batchCreateTasks`. -/
structure BatchResult where
  results : List ItemOutcome
  successes : List JVal
  failures : List TaskError

/-- The per-item loop of `batchCreateTasks`, processing the tasks from
0-based index `i` onward, threading `taskCardIdMap`. Each iteration
defaults a falsy position in place, calls `createTask`, and records either
a success or a failure entry; the mutated task object is what the failure
entry carries. -/
def batchLoop (env : Gateway) :
    List CreateTaskOptions → Nat → TCMap →
    (List ItemOutcome × List JVal × List TaskError × TCMap × List Request)
  | [], _, m => ([], [], [], m, [])
  | t :: ts, i, m =>
    let t' := normTask i t
    let out := createTask env m t'.cardId t'.name t'.position
    match out.result with
    | .ok r =>
      let (rs, ss, fs, m', tr) := batchLoop env ts (i + 1) out.tmap
      (.success r :: rs, r :: ss, fs, m', out.trace ++ tr)
    | .error e =>
      let (rs, ss, fs, m', tr) := batchLoop env ts (i + 1) out.tmap
      (.failure e :: rs, ss, ⟨i, t', e⟩ :: fs, m', out.trace ++ tr)

/-- `batchCreateTasks`. The loop body never throws (every awaited call sits
inside the per-item `try`), so the function's outer `catch` is unreachable
and the embedding returns a `BatchResult` unconditionally. -/
def batchCreateTasks (env : Gateway) (m : TCMap) (tasks : List CreateTaskOptions) :
    TOut BatchResult :=
  let (rs, ss, fs, m', tr) := batchLoop env tasks 0 m
  ⟨.ok ⟨rs, ss, fs⟩, m', tr⟩

/-- The card read issued by `getTasks` and `getTask`:
`GET /api/cards/:cardId`, no body. -/
def cardReq (cardId : String) : Request :=
  ⟨"/api/cards/" ++ cardId, "GET", none⟩

/-- The extraction both card-reading operations perform on the response:
`response?.included?.taskLists || response?.included?.tasks`. -/
def extractTaskLists (resp : JVal) : JVal :=
  let tls := (resp.getOpt "included").getOpt "taskLists"
  if tls.truthy then tls else (resp.getOpt "included").getOpt "tasks"

/-- `getTasks` (list the task lists of a card). Fetches the card, extracts
the embedded collection under either accepted field name, and returns it
when it is an array; returns `[]` on a non-array extraction or on any fetch
failure — this path never raises, which the embedding expresses by
returning a plain list, not an `Except`. -/
def getTasks (env : Gateway) (cardId : String) : List JVal × List Request :=
  let req := cardReq cardId
  match env req with
  | .error _ => ([], [req])
  | .ok resp =>
    match extractTaskLists resp with
    | .arr xs => (xs, [req])
    | _ => ([], [req])

/-- The scan `taskLists.find((tl) => tl.id === id)`: left-to-right, strict
string equality on the `id` property; property access on a `null` or
`undefined` element throws. -/
def findTL : List JVal → String → Except String (Option JVal)
  | [], _ => .ok none
  | tl :: rest, id =>
    match tl.get "id" with
    | .error e => .error e
    | .ok v =>
      match v with
      | .str s => if s = id then .ok (some tl) else findTL rest id
      | _ => findTL rest id

/-- The card-id resolution of `getTask`: `cardId || taskCardIdMap[id]`
followed by the `if (!taskCardId)` falsiness test — JavaScript `||`, so an
explicit empty string falls through to the map, and a resolved empty
string counts as missing. `none` means the missing-context throw fires. -/
def resolveCardId (m : TCMap) (id : String) (cardId : Option String) : Option String :=
  let r : Option String :=
    match cardId with
    | some c => if c ≠ "" then some c else m.lookup id
    | none => m.lookup id
  match r with
  | some c => if c = "" then none else some c
  | none => none

/-- `getTask` (fetch one task list by id). Resolves the effective card id
via `resolveCardId` and throws the missing-context message when it is
missing, before issuing any request. Otherwise fetches the card, throws
the collection-unavailable message when the extraction is not an array,
scans for the id, and throws the not-found message when the scan misses.
Every throw is wrapped by the operation's `catch` with the
`Failed to get task list:` prefix. -/
def getTask (env : Gateway) (m : TCMap) (id : String) (cardId : Option String) :
    TOut JVal :=
  match resolveCardId m id cardId with
  | none =>
    ⟨.error ("Failed to get task list: Card ID is required to get a task list. Either provide it directly or create the task list first."),
      m, []⟩
  | some c =>
      match env (cardReq c) with
      | .error e => ⟨.error ("Failed to get task list: " ++ e), m, [cardReq c]⟩
      | .ok resp =>
        match extractTaskLists resp with
        | .arr xs =>
          match findTL xs id with
          | .error e => ⟨.error ("Failed to get task list: " ++ e), m, [cardReq c]⟩
          | .ok (some tl) => ⟨.ok tl, m, [cardReq c]⟩
          | .ok none =>
            ⟨.error ("Failed to get task list: Task list with ID " ++ id ++ " not found in card " ++ c),
              m, [cardReq c]⟩
        | _ =>
          ⟨.error ("Failed to get task list: Failed to get task lists for card " ++ c),
            m, [cardReq c]⟩

/-- The update options of `updateTask` (task-list update): optional name
and position; absent fields are omitted from the JSON body. -/
structure UpdateTLOpts where
  name : Option String
  position : Option Int

/-- JSON body sent by `updateTask`: the present fields of the options. -/
def updateTLBody (o : UpdateTLOpts) : JVal :=
  .obj ((match o.name with | some n => [("name", JVal.str n)] | none => []) ++
        (match o.position with | some p => [("position", JVal.num p)] | none => []))

/-- The validated task-list entity.

Modelled from the spec: the `PlankaTaskSchema` validator lives in
`src/common/types.ts`, which is not part of the sources here; the spec's
data model gives the task-list entry identity `id` and attributes `name`
and `position` (numeric sort key), so the validator is embedded as
requiring exactly those three fields with those types. -/
structure PlankaTask where
  id : String
  name : String
  position : Int
deriving DecidableEq

/-- Modelled from the spec: structural validation of one task-list entry
(see `PlankaTask`). -/
def parsePlankaTask (v : JVal) : Option PlankaTask :=
  match v with
  | .obj _ =>
    match v.getOpt "id", v.getOpt "name", v.getOpt "position" with
    | .str i, .str n, .num p => some ⟨i, n, p⟩
    | _, _, _ => none
  | _ => none

/-- `TaskResponseSchema`: an object `{ item, included? }` whose `item`
validates as a task-list entry and whose `included`, when present, is a
record. -/
def parseTaskResponse (v : JVal) : Option PlankaTask :=
  match v with
  | .obj _ =>
    match parsePlankaTask (v.getOpt "item") with
    | some t =>
      match v.getOpt "included" with
      | .undefined => some t
      | .obj _ => some t
      | _ => none
    | none => none
  | _ => none

/-- `updateTask` (task-list update): `PATCH /api/task-lists/:id`, result
validated against the task-list shape. The source has no `try`/`catch`
here: a gateway failure propagates unwrapped, and a response that fails
validation raises the validator's own error (message text not modelled
bit-for-bit, embedded as a fixed marker). -/
def updateTask (env : Gateway) (id : String) (o : UpdateTLOpts) :
    Except String PlankaTask × List Request :=
  let req : Request := ⟨"/api/task-lists/" ++ id, "PATCH", some (updateTLBody o)⟩
  match env req with
  | .error e => (.error e, [req])
  | .ok resp =>
    match parseTaskResponse resp with
    | some t => (.ok t, [req])
    | none => (.error "ZodError", [req])

/-- `deleteTask` (task-list deletion): `DELETE /api/task-lists/:id`,
returning `{ success: true }`. No `try`/`catch`: a gateway failure
propagates unwrapped. The module-level map is not touched. -/
def deleteTask (env : Gateway) (id : String) : Except String Bool × List Request :=
  let req : Request := ⟨"/api/task-lists/" ++ id, "DELETE", none⟩
  match env req with
  | .error e => (.error e, [req])
  | .ok _ => (.ok true, [req])

/-- The request issued by `createTaskInTaskList`:
`POST /api/task-lists/:taskListId/tasks` with body
`{ name, position, isCompleted }`. -/
def createItemReq (taskListId name : String) (position : Int) (isCompleted : Bool) :
    Request :=
  ⟨"/api/task-lists/" ++ taskListId ++ "/tasks", "POST",
    some (.obj [("name", .str name), ("position", .num position),
                ("isCompleted", .bool isCompleted)])⟩

/-- `createTaskInTaskList` (create one checkable item): defaults `position`
to `65535` and `isCompleted` to `false`, returns `response.item`
unvalidated; any failure is wrapped with the
`Failed to create task in task list:` prefix. -/
def createTaskInTaskList (env : Gateway) (taskListId name : String)
    (position : Option Int) (isCompleted : Option Bool) :
    Except String JVal × List Request :=
  let req := createItemReq taskListId name (position.getD 65535) (isCompleted.getD false)
  match env req with
  | .error e => (.error ("Failed to create task in task list: " ++ e), [req])
  | .ok resp =>
    match resp.get "item" with
    | .error e => (.error ("Failed to create task in task list: " ++ e), [req])
    | .ok item => (.ok item, [req])

/-- The update options of `updateTaskInTaskList`: optional name, position
and completion flag; absent fields are omitted from the JSON body. -/
structure UpdateItemOpts where
  name : Option String
  position : Option Int
  isCompleted : Option Bool

/-- JSON body sent by `updateTaskInTaskList`. -/
def updateItemBody (o : UpdateItemOpts) : JVal :=
  .obj ((match o.name with | some n => [("name", JVal.str n)] | none => []) ++
        (match o.position with | some p => [("position", JVal.num p)] | none => []) ++
        (match o.isCompleted with | some b => [("isCompleted", JVal.bool b)] | none => []))

/-- `updateTaskInTaskList` (item update): `PATCH /api/tasks/:id`, returning
`response.item` unvalidated. No `try`/`catch`: a gateway failure (or the
`TypeError` from reading `.item` of a `null` response) propagates
unwrapped. -/
def updateTaskInTaskList (env : Gateway) (id : String) (o : UpdateItemOpts) :
    Except String JVal × List Request :=
  let req : Request := ⟨"/api/tasks/" ++ id, "PATCH", some (updateItemBody o)⟩
  match env req with
  | .error e => (.error e, [req])
  | .ok resp =>
    match resp.get "item" with
    | .error e => (.error e, [req])
    | .ok item => (.ok item, [req])

/-- `deleteTaskInTaskList` (item deletion): `DELETE /api/tasks/:id`,
returning `{ success: true }`. No `try`/`catch`: a gateway failure
propagates unwrapped. -/
def deleteTaskInTaskList (env : Gateway) (id : String) :
    Except String Bool × List Request :=
  let req : Request := ⟨"/api/tasks/" ++ id, "DELETE", none⟩
  match env req with
  | .error e => (.error e, [req])
  | .ok _ => (.ok true, [req])

/-- One element of the `tasks` array accepted by
`createTaskListWithTasks`: a name and an optional completion flag. -/
structure TaskItemInput where
  name : String
  isCompleted : Option Bool
deriving DecidableEq

/-- The item-creation loop of `createTaskListWithTasks`, from 0-based index
`i` onward. Each iteration reads `taskList.id` (throwing when `taskList` is
`null`/`undefined`), calls `createTaskInTaskList` with position
`65535 * (i + 1)` and `isCompleted: task.isCompleted || false`, and stops
at the first failure. -/
def ctlwLoop (env : Gateway) (taskList : JVal) :
    List TaskItemInput → Nat → Except String (List JVal) × List Request
  | [], _ => (.ok [], [])
  | t :: ts, i =>
    match taskList.get "id" with
    | .error e => (.error e, [])
    | .ok idv =>
      let (r, tr) := createTaskInTaskList env idv.toKey t.name
        (some (65535 * ((i : Int) + 1))) (some (t.isCompleted.getD false))
      match r with
      | .error e => (.error e, tr)
      | .ok item =>
        let (rest, tr') := ctlwLoop env taskList ts (i + 1)
        match rest with
        | .error e => (.error e, tr ++ tr')
        | .ok items => (.ok (item :: items), tr ++ tr')

/-- `createTaskListWithTasks` (compound creation): first creates the
checklist via `createTask` with no explicit position (so the default
`65535`), then creates the items sequentially; returns the checklist
together with the created items. Any failure anywhere is wrapped by the
outer `catch` with the `Failed to create task list with tasks:` prefix; no
compensating deletion is ever issued. -/
def createTaskListWithTasks (env : Gateway) (m : TCMap) (cardId name : String)
    (tasks : List TaskItemInput) : TOut (JVal × List JVal) :=
  let c := createTask env m cardId name none
  match c.result with
  | .error e =>
    ⟨.error ("Failed to create task list with tasks: " ++ e), c.tmap, c.trace⟩
  | .ok taskList =>
    let (r, tr) := ctlwLoop env taskList tasks 0
    match r with
    | .error e =>
      ⟨.error ("Failed to create task list with tasks: " ++ e), c.tmap, c.trace ++ tr⟩
    | .ok items => ⟨.ok (taskList, items), c.tmap, c.trace ++ tr⟩

/-- A validated comment entity (`CommentActionSchema`): id, the constant
`commentCard` discriminator (checked by the validator, not stored), the
`data.text` payload, owning card, author, creation timestamp, and nullable
update timestamp. -/
structure CommentAction where
  id : String
  text : String
  cardId : String
  userId : String
  createdAt : String
  updatedAt : Option String
deriving DecidableEq

/-- `CommentActionSchema` validation: an object whose `id`, `cardId`,
`userId`, `createdAt` are strings, whose `type` is the literal
`commentCard`, whose `data` is an object with a string `text`, and whose
`updatedAt` is a string or `null` (absence fails). -/
def parseCommentAction (v : JVal) : Option CommentAction :=
  match v with
  | .obj _ =>
    match v.getOpt "id", v.getOpt "type", v.getOpt "cardId", v.getOpt "userId",
      v.getOpt "createdAt" with
    | .str i, .str ty, .str c, .str u, .str ca =>
      if ty = "commentCard" then
        match v.getOpt "data" with
        | .obj _ =>
          match (v.getOpt "data").getOpt "text" with
          | .str tx =>
            match v.getOpt "updatedAt" with
            | .str s => some ⟨i, tx, c, u, ca, some s⟩
            | .null => some ⟨i, tx, c, u, ca, none⟩
            | _ => none
          | _ => none
        | _ => none
      else none
    | _, _, _, _, _ => none
  | _ => none

/-- `z.array(CommentActionSchema)` validation: every element must
validate, in order. -/
def parseAllComments : List JVal → Option (List CommentAction)
  | [] => some []
  | v :: vs =>
    match parseCommentAction v, parseAllComments vs with
    | some c, some cs => some (c :: cs)
    | _, _ => none

/-- `CommentActionsResponseSchema`: an enveloped object `{ items,
included? }` whose `items` all validate as comment entities and whose
`included`, when present, is a record. -/
def parseCommentsEnvelope (v : JVal) : Option (List CommentAction) :=
  match v with
  | .obj _ =>
    match v.getOpt "items" with
    | .arr xs =>
      match v.getOpt "included" with
      | .undefined => parseAllComments xs
      | .obj _ => parseAllComments xs
      | _ => none
    | _ => none
  | _ => none

/-- `CommentActionResponseSchema`: `{ item, included? }` with a single
validated comment entity. -/
def parseCommentResponse (v : JVal) : Option CommentAction :=
  match v with
  | .obj _ =>
    match parseCommentAction (v.getOpt "item") with
    | some c =>
      match v.getOpt "included" with
      | .undefined => some c
      | .obj _ => some c
      | _ => none
    | none => none
  | _ => none

/-- The comment-collection read issued by `getComments` (and through it by
`getComment`): `GET /api/cards/:cardId/comments`, no body. -/
def commentsReq (cardId : String) : Request :=
  ⟨"/api/cards/" ++ cardId ++ "/comments", "GET", none⟩

/-- `createComment`: `POST /api/cards/:cardId/comments` with body
`{ text }`; the response is validated and any failure is wrapped with the
`Failed to create comment:` prefix (validator message text embedded as a
fixed marker). -/
def createComment (env : Gateway) (cardId text : String) :
    Except String CommentAction × List Request :=
  let req : Request :=
    ⟨"/api/cards/" ++ cardId ++ "/comments", "POST", some (.obj [("text", .str text)])⟩
  match env req with
  | .error e => (.error ("Failed to create comment: " ++ e), [req])
  | .ok resp =>
    match parseCommentResponse resp with
    | some c => (.ok c, [req])
    | none => (.error ("Failed to create comment: ZodError"), [req])

/-- `getComments` (list the comments of a card): tries the enveloped shape
first, then the bare-array shape; any parse failure or fetch failure
degrades to `[]`. This path never raises, which the embedding expresses by
returning a plain list, not an `Except`. -/
def getComments (env : Gateway) (cardId : String) :
    List CommentAction × List Request :=
  let req := commentsReq cardId
  match env req with
  | .error _ => ([], [req])
  | .ok resp =>
    match parseCommentsEnvelope resp with
    | some items => (items, [req])
    | none =>
      match resp with
      | .arr xs =>
        match parseAllComments xs with
        | some items => (items, [req])
        | none => ([], [req])
      | _ => ([], [req])

/-- `getComment`: fetches the card's comments via `getComments` and scans
for the id; a miss throws the not-found message, which the operation's own
`catch` wraps with the `Failed to get comment:` prefix. -/
def getComment (env : Gateway) (id cardId : String) :
    Except String CommentAction × List Request :=
  let (comments, tr) := getComments env cardId
  match comments.find? (fun c => c.id = id) with
  | some c => (.ok c, tr)
  | none =>
    (.error ("Failed to get comment: Comment with ID " ++ id ++ " not found in card " ++ cardId),
      tr)

/-- `updateComment`: `PATCH /api/comments/:id` with body `{ text }` (an
absent `text` serializes to an empty body); response validated; failures
wrapped with the `Failed to update comment:` prefix. -/
def updateComment (env : Gateway) (id : String) (text : Option String) :
    Except String CommentAction × List Request :=
  let req : Request :=
    ⟨"/api/comments/" ++ id, "PATCH",
      some (.obj (match text with | some t => [("text", JVal.str t)] | none => []))⟩
  match env req with
  | .error e => (.error ("Failed to update comment: " ++ e), [req])
  | .ok resp =>
    match parseCommentResponse resp with
    | some c => (.ok c, [req])
    | none => (.error ("Failed to update comment: ZodError"), [req])

/-- `deleteComment`: `DELETE /api/comments/:id`, returning
`{ success: true }`; failures wrapped with the `Failed to delete comment:`
prefix. -/
def deleteComment (env : Gateway) (id : String) :
    Except String Bool × List Request :=
  let req : Request := ⟨"/api/comments/" ++ id, "DELETE", none⟩
  match env req with
  | .error e => (.error ("Failed to delete comment: " ++ e), [req])
  | .ok _ => (.ok true, [req])

/-- One manager-level operation invocation, covering every exported
function of the two modules, for reasoning about sequences of calls
against the module-level `taskCardIdMap`. -/
inductive Op where
  | opCreateTask : String → String → Option Int → Op
  | opBatchCreateTasks : List CreateTaskOptions → Op
  | opGetTasks : String → Op
  | opGetTask : String → Option String → Op
  | opUpdateTask : String → UpdateTLOpts → Op
  | opDeleteTask : String → Op
  | opCreateTaskInTaskList : String → String → Option Int → Option Bool → Op
  | opUpdateTaskInTaskList : String → UpdateItemOpts → Op
  | opDeleteTaskInTaskList : String → Op
  | opCreateTaskListWithTasks : String → String → List TaskItemInput → Op
  | opCreateComment : String → String → Op
  | opGetComments : String → Op
  | opGetComment : String → String → Op
  | opUpdateComment : String → Option String → Op
  | opDeleteComment : String → Op

/-- The `taskCardIdMap` after running one operation on map `m`. Operations
whose source never mentions `taskCardIdMap` (and the whole comment module,
which lives in another file) leave `m` untouched by construction; the three
operations that go through `createTask`, plus `getTask` which reads the
map, are dispatched to their embeddings. -/
def runOp (env : Gateway) (m : TCMap) : Op → TCMap
  | .opCreateTask c n p => (createTask env m c n p).tmap
  | .opBatchCreateTasks ts => (batchCreateTasks env m ts).tmap
  | .opGetTasks _ => m
  | .opGetTask id c => (getTask env m id c).tmap
  | .opUpdateTask _ _ => m
  | .opDeleteTask _ => m
  | .opCreateTaskInTaskList _ _ _ _ => m
  | .opUpdateTaskInTaskList _ _ => m
  | .opDeleteTaskInTaskList _ => m
  | .opCreateTaskListWithTasks c n ts => (createTaskListWithTasks env m c n ts).tmap
  | .opCreateComment _ _ => m
  | .opGetComments _ => m
  | .opGetComment _ _ => m
  | .opUpdateComment _ _ => m
  | .opDeleteComment _ => m

/-- The `taskCardIdMap` after running a sequence of operations. -/
def runOps (env : Gateway) : List Op → TCMap → TCMap
  | [], m => m
  | op :: ops, m => runOps env ops (runOp env m op)

/-- The map entries one operation records, most recent first: its map
effect when started from the empty map. -/
def opRecords (env : Gateway) : Op → TCMap
  | .opCreateTask c n p => (createTask env [] c n p).tmap
  | .opBatchCreateTasks ts => (batchCreateTasks env [] ts).tmap
  | .opCreateTaskListWithTasks c n ts => (createTaskListWithTasks env [] c n ts).tmap
  | _ => []

/-- Whether an operation reaches `createTask` (the only writer of
`taskCardIdMap`). -/
def reachesCreateTaskList : Op → Bool
  | .opCreateTask _ _ _ => true
  | .opBatchCreateTasks _ => true
  | .opCreateTaskListWithTasks _ _ _ => true
  | _ => false

/-- The per-item outcome `batchCreateTasks` computes for the task at
0-based index `i`: the result of `createTask` on the position-defaulted
item (the result component does not depend on the map, so it is read off
the empty-map run). -/
def itemOutcomeAt (env : Gateway) (p : Nat × CreateTaskOptions) : ItemOutcome :=
  match (createTask env [] (normTask p.1 p.2).cardId (normTask p.1 p.2).name
      (normTask p.1 p.2).position).result with
  | .ok r => .success r
  | .error e => .failure e

/-- The failure entry `batchCreateTasks` records for the task at 0-based
index `i`, when its creation fails: index, position-defaulted item,
message. -/
def failureAt (env : Gateway) (p : Nat × CreateTaskOptions) : Option TaskError :=
  match (createTask env [] (normTask p.1 p.2).cardId (normTask p.1 p.2).name
      (normTask p.1 p.2).position).result with
  | .ok _ => none
  | .error e => some ⟨p.1, normTask p.1 p.2, e⟩

theorem createTask_shift (env : Gateway) (m : TCMap) (c n : String) (p : Option Int) :
    createTask env m c n p =
      ⟨(createTask env [] c n p).result, (createTask env [] c n p).tmap ++ m,
        (createTask env [] c n p).trace⟩ := by
  cases h : env (createTLReq c n (p.getD 65535)) with
  | error e => simp [createTask, h]
  | ok response =>
    cases h2 : response.get "item" with
    | error e => simp [createTask, h, h2]
    | ok item =>
      by_cases ht : item.truthy
      · cases h3 : item.get "id" with
        | error e => simp [createTask, h, h2, ht, h3]
        | ok idv =>
          by_cases hi : idv.truthy <;> simp [createTask, h, h2, ht, h3, hi]
      · simp [createTask, h, h2, ht]

theorem batchLoop_shift (env : Gateway) (ts : List CreateTaskOptions) :
    ∀ (i : Nat) (m : TCMap),
      batchLoop env ts i m =
        ((batchLoop env ts i []).1, (batchLoop env ts i []).2.1,
          (batchLoop env ts i []).2.2.1, (batchLoop env ts i []).2.2.2.1 ++ m,
          (batchLoop env ts i []).2.2.2.2) := by
  induction ts with
  | nil => intro i m; rfl
  | cons t ts ih =>
    intro i m
    simp only [batchLoop]
    rw [createTask_shift env m, createTask_shift env []]
    simp only [List.append_nil]
    cases hr : (createTask env [] (normTask i t).cardId (normTask i t).name
        (normTask i t).position).result with
    | ok r =>
      simp only
      rw [ih (i + 1) ((createTask env [] (normTask i t).cardId (normTask i t).name
            (normTask i t).position).tmap ++ m),
          ih (i + 1) (createTask env [] (normTask i t).cardId (normTask i t).name
            (normTask i t).position).tmap]
      simp [List.append_assoc]
    | error e =>
      simp only
      rw [ih (i + 1) ((createTask env [] (normTask i t).cardId (normTask i t).name
            (normTask i t).position).tmap ++ m),
          ih (i + 1) (createTask env [] (normTask i t).cardId (normTask i t).name
            (normTask i t).position).tmap]
      simp [List.append_assoc]

theorem getTask_tmap (env : Gateway) (m : TCMap) (id : String) (c : Option String) :
    (getTask env m id c).tmap = m := by
  simp only [getTask]
  repeat first | rfl | split

theorem runOp_shift (env : Gateway) (m : TCMap) (op : Op) :
    runOp env m op = opRecords env op ++ m := by
  cases op <;> simp only [runOp, opRecords, List.nil_append]
  case opCreateTask c n p => rw [createTask_shift env m]
  case opBatchCreateTasks ts =>
    simp only [batchCreateTasks]
    rw [batchLoop_shift env ts 0 m]
  case opGetTask id c => exact getTask_tmap env m id c
  case opCreateTaskListWithTasks c n ts =>
    simp only [createTaskListWithTasks]
    rw [createTask_shift env m]
    cases (createTask env [] c n none).result with
    | error e => simp
    | ok tl =>
      simp only
      cases (ctlwLoop env tl ts 0).1 with
      | error e => simp
      | ok items => simp

theorem runOps_shift (env : Gateway) (ops : List Op) :
    ∀ m : TCMap,
      runOps env ops m = ((ops.map (opRecords env)).reverse).flatten ++ m := by
  induction ops with
  | nil => intro m; simp [runOps]
  | cons op ops ih =>
    intro m
    simp only [runOps, List.map_cons, List.reverse_cons, List.flatten_append]
    rw [runOp_shift, ih (opRecords env op ++ m)]
    simp [List.append_assoc]

theorem createTask_trace (env : Gateway) (m : TCMap) (c n : String) (p : Option Int) :
    (createTask env m c n p).trace = [createTLReq c n (p.getD 65535)] := by
  cases h : env (createTLReq c n (p.getD 65535)) with
  | error e => simp [createTask, h]
  | ok response =>
    cases h2 : response.get "item" with
    | error e => simp [createTask, h, h2]
    | ok item =>
      by_cases ht : item.truthy
      · cases h3 : item.get "id" with
        | error e => simp [createTask, h, h2, ht, h3]
        | ok idv =>
          by_cases hi : idv.truthy <;> simp [createTask, h, h2, ht, h3, hi]
      · simp [createTask, h, h2, ht]

theorem createTask_error (env : Gateway) (m : TCMap) (c n : String) (p : Option Int)
    (e : String) (h : env (createTLReq c n (p.getD 65535)) = .error e) :
    createTask env m c n p =
      ⟨.error ("Failed to create task list: " ++ e), m, [createTLReq c n (p.getD 65535)]⟩ := by
  simp [createTask, h]

theorem normTask_cardId (i : Nat) (t : CreateTaskOptions) :
    (normTask i t).cardId = t.cardId := by
  unfold normTask; split <;> rfl

theorem normTask_name (i : Nat) (t : CreateTaskOptions) :
    (normTask i t).name = t.name := by
  unfold normTask; split <;> rfl

theorem normTask_position (i : Nat) (t : CreateTaskOptions) :
    (normTask i t).position.getD 65535 =
      (if posFalsy t.position then 65535 * ((i : Int) + 1) else t.position.getD 65535) := by
  unfold normTask; split <;> simp_all

theorem batchLoop_results (env : Gateway) (ts : List CreateTaskOptions) :
    ∀ (i : Nat) (m : TCMap),
      (batchLoop env ts i m).1 = (ts.enumFrom i).map (itemOutcomeAt env) := by
  induction ts with
  | nil => intro i m; rfl
  | cons t ts ih =>
    intro i m
    simp only [batchLoop, List.enumFrom, List.map_cons]
    rw [createTask_shift env m]
    cases hr : (createTask env [] (normTask i t).cardId (normTask i t).name
        (normTask i t).position).result with
    | ok r => simp [itemOutcomeAt, hr, ih]
    | error e => simp [itemOutcomeAt, hr, ih]

theorem batchLoop_successes (env : Gateway) (ts : List CreateTaskOptions) :
    ∀ (i : Nat) (m : TCMap),
      (batchLoop env ts i m).2.1 = (ts.enumFrom i).filterMap (fun p =>
        ((createTask env [] (normTask p.1 p.2).cardId (normTask p.1 p.2).name
          (normTask p.1 p.2).position).result).toOption) := by
  induction ts with
  | nil => intro i m; rfl
  | cons t ts ih =>
    intro i m
    simp only [batchLoop, List.enumFrom, List.filterMap_cons]
    rw [createTask_shift env m]
    cases hr : (createTask env [] (normTask i t).cardId (normTask i t).name
        (normTask i t).position).result with
    | ok r => simp [hr, Except.toOption, ih]
    | error e => simp [hr, Except.toOption, ih]

theorem batchLoop_failures (env : Gateway) (ts : List CreateTaskOptions) :
    ∀ (i : Nat) (m : TCMap),
      (batchLoop env ts i m).2.2.1 = (ts.enumFrom i).filterMap (failureAt env) := by
  induction ts with
  | nil => intro i m; rfl
  | cons t ts ih =>
    intro i m
    simp only [batchLoop, List.enumFrom, List.filterMap_cons]
    rw [createTask_shift env m]
    cases hr : (createTask env [] (normTask i t).cardId (normTask i t).name
        (normTask i t).position).result with
    | ok r => simp [failureAt, hr, ih]
    | error e => simp [failureAt, hr, ih]

theorem batchLoop_trace (env : Gateway) (ts : List CreateTaskOptions) :
    ∀ (i : Nat) (m : TCMap),
      (batchLoop env ts i m).2.2.2.2 = (ts.enumFrom i).map (fun p =>
        createTLReq (normTask p.1 p.2).cardId (normTask p.1 p.2).name
          ((normTask p.1 p.2).position.getD 65535)) := by
  induction ts with
  | nil => intro i m; rfl
  | cons t ts ih =>
    intro i m
    simp only [batchLoop, List.enumFrom, List.map_cons]
    rw [createTask_shift env m]
    cases hr : (createTask env [] (normTask i t).cardId (normTask i t).name
        (normTask i t).position).result with
    | ok r =>
      simp only
      rw [ih (i + 1)]
      simp [createTask_trace]
    | error e =>
      simp only
      rw [ih (i + 1)]
      simp [createTask_trace]

theorem createTaskInTaskList_trace (env : Gateway) (tlId n : String)
    (p : Option Int) (ic : Option Bool) :
    (createTaskInTaskList env tlId n p ic).2 =
      [createItemReq tlId n (p.getD 65535) (ic.getD false)] := by
  cases h : env (createItemReq tlId n (p.getD 65535) (ic.getD false)) with
  | error e => simp [createTaskInTaskList, h]
  | ok resp =>
    cases h2 : resp.get "item" with
    | error e => simp [createTaskInTaskList, h, h2]
    | ok item => simp [createTaskInTaskList, h, h2]

theorem createTaskInTaskList_ok (env : Gateway) (tlId n : String)
    (p : Option Int) (ic : Option Bool) (r it : JVal)
    (h : env (createItemReq tlId n (p.getD 65535) (ic.getD false)) = .ok r)
    (h2 : r.get "item" = .ok it) :
    createTaskInTaskList env tlId n p ic =
      (.ok it, [createItemReq tlId n (p.getD 65535) (ic.getD false)]) := by
  simp [createTaskInTaskList, h, h2]

theorem createTaskInTaskList_err (env : Gateway) (tlId n : String)
    (p : Option Int) (ic : Option Bool) (e : String)
    (h : env (createItemReq tlId n (p.getD 65535) (ic.getD false)) = .error e) :
    createTaskInTaskList env tlId n p ic =
      (.error ("Failed to create task in task list: " ++ e),
       [createItemReq tlId n (p.getD 65535) (ic.getD false)]) := by
  simp [createTaskInTaskList, h]

theorem ctlwLoop_methods (env : Gateway) (tl : JVal) (ts : List TaskItemInput) :
    ∀ (i : Nat) (r : Request), r ∈ (ctlwLoop env tl ts i).2 → r.method = "POST" := by
  induction ts with
  | nil => intro i r hr; simp [ctlwLoop] at hr
  | cons t ts ih =>
    intro i r hr
    cases hid : tl.get "id" with
    | error e => simp [ctlwLoop, hid] at hr
    | ok idv =>
      rcases hc : createTaskInTaskList env idv.toKey t.name
        (some (65535 * ((i : Int) + 1))) (some (t.isCompleted.getD false)) with ⟨rr, tr⟩
      have htr : tr = [createItemReq idv.toKey t.name (65535 * ((i : Int) + 1))
          (t.isCompleted.getD false)] := by
        have := createTaskInTaskList_trace env idv.toKey t.name
          (some (65535 * ((i : Int) + 1))) (some (t.isCompleted.getD false))
        rw [hc] at this
        simpa using this
      cases rr with
      | error e =>
        simp only [ctlwLoop, hid, hc] at hr
        rw [htr] at hr
        simp at hr
        simp [hr, createItemReq]
      | ok item =>
        rcases hrest : ctlwLoop env tl ts (i + 1) with ⟨rest, tr2⟩
        simp only [ctlwLoop, hid, hc, hrest] at hr
        cases rest with
        | error e =>
          simp only [List.mem_append] at hr
          rcases hr with hr | hr
          · rw [htr] at hr; simp at hr; simp [hr, createItemReq]
          · have := ih (i + 1) r (by rw [hrest]; exact hr)
            exact this
        | ok items =>
          simp only [List.mem_append] at hr
          rcases hr with hr | hr
          · rw [htr] at hr; simp at hr; simp [hr, createItemReq]
          · have := ih (i + 1) r (by rw [hrest]; exact hr)
            exact this

theorem ctlwLoop_ok (env : Gateway) (tl idv : JVal) (hid : tl.get "id" = .ok idv)
    (items : Nat → JVal) (ts : List TaskItemInput) :
    ∀ (i : Nat),
      (∀ p ∈ ts.enumFrom i, ∃ r, env (createItemReq idv.toKey p.2.name
          (65535 * ((p.1 : Int) + 1)) (p.2.isCompleted.getD false)) = .ok r ∧
          r.get "item" = .ok (items p.1)) →
      ctlwLoop env tl ts i =
        (.ok ((ts.enumFrom i).map (fun p => items p.1)),
         (ts.enumFrom i).map (fun p => createItemReq idv.toKey p.2.name
            (65535 * ((p.1 : Int) + 1)) (p.2.isCompleted.getD false))) := by
  induction ts with
  | nil => intro i h; rfl
  | cons t ts ih =>
    intro i h
    obtain ⟨r, hr, hit⟩ := h (i, t) (by simp [List.enumFrom])
    have hcall := createTaskInTaskList_ok env idv.toKey t.name
      (some (65535 * ((i : Int) + 1))) (some (t.isCompleted.getD false)) r (items i)
      (by simpa using hr) hit
    have hrec := ih (i + 1) (fun p hp => h p (by simp [List.enumFrom]; right; exact hp))
    simp only [ctlwLoop, hid, hcall, hrec, List.enumFrom, List.map_cons]
    simp

theorem ctlwLoop_fail (env : Gateway) (tl idv : JVal) (hid : tl.get "id" = .ok idv)
    (t : TaskItemInput) (e : String) (done : List TaskItemInput) :
    ∀ (rest : List TaskItemInput) (i : Nat),
      (∀ p ∈ done.enumFrom i, ∃ r it, env (createItemReq idv.toKey p.2.name
          (65535 * ((p.1 : Int) + 1)) (p.2.isCompleted.getD false)) = .ok r ∧
          r.get "item" = .ok it) →
      env (createItemReq idv.toKey t.name (65535 * (((i + done.length : Nat) : Int) + 1))
          (t.isCompleted.getD false)) = .error e →
      ctlwLoop env tl (done ++ t :: rest) i =
        (.error ("Failed to create task in task list: " ++ e),
         (done.enumFrom i).map (fun p => createItemReq idv.toKey p.2.name
            (65535 * ((p.1 : Int) + 1)) (p.2.isCompleted.getD false)) ++
           [createItemReq idv.toKey t.name (65535 * (((i + done.length : Nat) : Int) + 1))
             (t.isCompleted.getD false)]) := by
  induction done with
  | nil =>
    intro rest i hdone hfail
    have hcall := createTaskInTaskList_err env idv.toKey t.name
      (some (65535 * ((i : Int) + 1))) (some (t.isCompleted.getD false)) e
      (by simpa using hfail)
    simp only [List.nil_append, ctlwLoop, hid, hcall, List.enumFrom, List.map_nil]
    simp
  | cons d done ih =>
    intro rest i hdone hfail
    obtain ⟨r, it, hr, hit⟩ := hdone (i, d) (by simp [List.enumFrom])
    have hcall := createTaskInTaskList_ok env idv.toKey d.name
      (some (65535 * ((i : Int) + 1))) (some (d.isCompleted.getD false)) r it
      (by simpa using hr) hit
    have hidx : (i + 1) + done.length = i + (done.length + 1) := by omega
    have hrec := ih rest (i + 1)
      (fun p hp => hdone p (by simp [List.enumFrom]; right; exact hp))
      (by rw [hidx]; simpa using hfail)
    have hcast : ((i + 1 + done.length : Nat) : Int) = ((i + (done.length + 1) : Nat) : Int) := by
      rw [hidx]
    simp only [List.cons_append, ctlwLoop, hid, hcall, List.enumFrom, List.map_cons,
      List.append_eq, List.nil_append]
    rw [hrec]
    simp [hcast]

theorem filterMap_success_payload (env : Gateway) (l : List (Nat × CreateTaskOptions)) :
    (l.map (itemOutcomeAt env)).filterMap (fun o => match o with
      | ItemOutcome.success r => some r
      | ItemOutcome.failure _ => none) =
    l.filterMap (fun p => ((createTask env [] (normTask p.1 p.2).cardId
        (normTask p.1 p.2).name (normTask p.1 p.2).position).result).toOption) := by
  rw [List.filterMap_map]
  congr 1
  funext p
  simp only [Function.comp_apply, itemOutcomeAt]
  cases (createTask env [] (normTask p.1 p.2).cardId (normTask p.1 p.2).name
      (normTask p.1 p.2).position).result <;> simp [Except.toOption]

/-- C1 (amended: a failure record carries the input item *after* the
in-place position defaulting, not the original item when its position was
absent or zero): `batch_create_task_lists` never raises — it returns a
`BatchResult` — with one outcome per input in input order, the subsequence
of successful results, and the subsequence of failure records carrying
index, position-defaulted item, and message. -/
theorem batchCreateTasks_partition (env : Gateway) (m : TCMap)
    (tasks : List CreateTaskOptions) :
    (batchCreateTasks env m tasks).result = .ok
      { results := tasks.enum.map (itemOutcomeAt env),
        successes := (tasks.enum.map (itemOutcomeAt env)).filterMap (fun o =>
          match o with
          | ItemOutcome.success r => some r
          | ItemOutcome.failure _ => none),
        failures := tasks.enum.filterMap (failureAt env) } ∧
    (tasks.enum.map (itemOutcomeAt env)).length = tasks.length := by
  have he : tasks.enum = List.enumFrom 0 tasks := rfl
  constructor
  · have hres : (batchCreateTasks env m tasks).result =
        .ok ⟨(batchLoop env tasks 0 m).1, (batchLoop env tasks 0 m).2.1,
          (batchLoop env tasks 0 m).2.2.1⟩ := rfl
    rw [hres, batchLoop_results, batchLoop_successes, batchLoop_failures,
      filterMap_success_payload, he]
  · simp

/-- C1, the part the source refutes: when an unpositioned task's creation
fails, the recorded failure carries the task with position already
defaulted in place (here `65535`), which differs from the original input
item (position absent). -/
theorem batchCreateTasks_failure_keeps_mutated_task :
    (batchCreateTasks (fun _ => .error "boom") [] [⟨"c", "n", none⟩]).result =
      .ok { results := [.failure "Failed to create task list: boom"],
            successes := [],
            failures := [⟨0, ⟨"c", "n", some 65535⟩, "Failed to create task list: boom"⟩] } ∧
    (⟨"c", "n", some 65535⟩ : CreateTaskOptions) ≠ ⟨"c", "n", none⟩ :=
  ⟨rfl, by decide⟩

/-- C4 (amended: an explicit position `0` is falsy in the source's
`if (!task.position)` test and is overwritten like a missing one): every
batch item's create request carries its explicit position when that is
nonzero, and `65535 * (index + 1)` when the position is absent or zero;
the issued positions depend only on the input list, so two calls with the
same input assign the same positions. -/
theorem batchCreateTasks_position_rule (env env2 : Gateway) (m m2 : TCMap)
    (tasks : List CreateTaskOptions) :
    (batchCreateTasks env m tasks).trace = tasks.enum.map (fun p =>
      createTLReq p.2.cardId p.2.name
        (if posFalsy p.2.position then 65535 * ((p.1 : Int) + 1)
         else p.2.position.getD 65535)) ∧
    (batchCreateTasks env m tasks).trace = (batchCreateTasks env2 m2 tasks).trace := by
  have key : ∀ (env3 : Gateway) (m3 : TCMap), (batchCreateTasks env3 m3 tasks).trace =
      tasks.enum.map (fun p => createTLReq p.2.cardId p.2.name
        (if posFalsy p.2.position then 65535 * ((p.1 : Int) + 1)
         else p.2.position.getD 65535)) := by
    intro env3 m3
    have he : tasks.enum = List.enumFrom 0 tasks := rfl
    have htr : (batchCreateTasks env3 m3 tasks).trace =
        (batchLoop env3 tasks 0 m3).2.2.2.2 := rfl
    rw [htr, batchLoop_trace, he]
    congr 1
    funext p
    rw [normTask_cardId, normTask_name, normTask_position]
  exact ⟨key env m, by rw [key env m, key env2 m2]⟩

/-- C4, the part the source refutes: an input item carrying the explicit
position `0` is created with position `65535`, not with its explicit
position unchanged. -/
theorem batchCreateTasks_zero_position_overwritten :
    (batchCreateTasks (fun _ => .ok .null) [] [⟨"c", "n", some 0⟩]).trace =
      [createTLReq "c" "n" 65535] ∧ (0 : Int) ≠ 65535 :=
  ⟨rfl, by decide⟩

/-- C2: `create_task_list_with_tasks` is non-transactional. No trace of it
ever contains a DELETE request (no compensating deletion); when the
initial checklist creation fails the whole operation raises with only that
one request issued (no item creation attempted); and when the creation of
the item at index `done.length` fails after the items of `done` succeeded,
the operation raises having issued exactly the checklist creation, the
`done` item creations, and the failing item creation — everything already
created stays created. -/
theorem createTaskListWithTasks_nontransactional (env : Gateway) (m : TCMap)
    (cardId name : String) (tasks : List TaskItemInput) :
    (∀ r ∈ (createTaskListWithTasks env m cardId name tasks).trace, r.method ≠ "DELETE") ∧
    (∀ e, env (createTLReq cardId name 65535) = .error e →
      createTaskListWithTasks env m cardId name tasks =
        ⟨.error ("Failed to create task list with tasks: " ++
            ("Failed to create task list: " ++ e)),
          m, [createTLReq cardId name 65535]⟩) ∧
    (∀ (tl idv : JVal) (e : String) (done rest : List TaskItemInput) (t : TaskItemInput),
      tasks = done ++ t :: rest →
      (createTask env m cardId name none).result = .ok tl →
      tl.get "id" = .ok idv →
      (∀ p ∈ done.enum, ∃ r it, env (createItemReq idv.toKey p.2.name
          (65535 * ((p.1 : Int) + 1)) (p.2.isCompleted.getD false)) = .ok r ∧
          r.get "item" = .ok it) →
      env (createItemReq idv.toKey t.name (65535 * ((done.length : Int) + 1))
          (t.isCompleted.getD false)) = .error e →
      (createTaskListWithTasks env m cardId name tasks).result =
        .error ("Failed to create task list with tasks: " ++
          ("Failed to create task in task list: " ++ e)) ∧
      (createTaskListWithTasks env m cardId name tasks).trace =
        createTLReq cardId name 65535 ::
          (done.enum.map (fun p => createItemReq idv.toKey p.2.name
            (65535 * ((p.1 : Int) + 1)) (p.2.isCompleted.getD false)) ++
           [createItemReq idv.toKey t.name (65535 * ((done.length : Int) + 1))
             (t.isCompleted.getD false)])) := by
  refine ⟨?_, ?_, ?_⟩
  · intro r hr
    cases hres : (createTask env m cardId name none).result with
    | error e =>
      simp only [createTaskListWithTasks, hres] at hr
      rw [createTask_trace] at hr
      simp at hr
      simp [hr, createTLReq]
    | ok tl =>
      rcases hl : ctlwLoop env tl tasks 0 with ⟨res, tr⟩
      have htr2 : ∀ q ∈ tr, q.method = "POST" := by
        intro q hq
        have := ctlwLoop_methods env tl tasks 0 q (by rw [hl]; exact hq)
        exact this
      cases res with
      | error e =>
        simp only [createTaskListWithTasks, hres, hl] at hr
        rw [createTask_trace] at hr
        simp only [List.mem_append, List.mem_singleton, List.mem_cons,
          List.not_mem_nil, or_false] at hr
        rcases hr with hr | hr
        · simp [hr, createTLReq]
        · have := htr2 r hr
          simp [this]
      | ok items =>
        simp only [createTaskListWithTasks, hres, hl] at hr
        rw [createTask_trace] at hr
        simp only [List.mem_append, List.mem_singleton, List.mem_cons,
          List.not_mem_nil, or_false] at hr
        rcases hr with hr | hr
        · simp [hr, createTLReq]
        · have := htr2 r hr
          simp [this]
  · intro e he
    have hc := createTask_error env m cardId name none e (by simpa using he)
    simp [createTaskListWithTasks, hc]
  · intro tl idv e done rest t htasks hres hid hdone hfail
    have he : done.enum = List.enumFrom 0 done := rfl
    have hloop := ctlwLoop_fail env tl idv hid t e done rest 0
      (by rw [← he]; exact hdone) (by simpa using hfail)
    rw [htasks]
    constructor
    · simp only [createTaskListWithTasks, hres, hloop]
    · simp only [createTaskListWithTasks, hres, hloop]
      rw [createTask_trace, he]
      simp

theorem createTaskListWithTasks_nontransactional_witness :
    (createTaskListWithTasks
        (fun r => if r.path = "/api/cards/c/task-lists"
          then .ok (.obj [("item", .obj [("id", .str "tl1")])])
          else .error "down")
        [] "c" "n" [⟨"a", none⟩]).result =
      .error ("Failed to create task list with tasks: " ++
        ("Failed to create task in task list: " ++ "down")) ∧
    (createTaskListWithTasks
        (fun r => if r.path = "/api/cards/c/task-lists"
          then .ok (.obj [("item", .obj [("id", .str "tl1")])])
          else .error "down")
        [] "c" "n" [⟨"a", none⟩]).trace =
      [createTLReq "c" "n" 65535, createItemReq "tl1" "a" 65535 false] := by
  have h := (createTaskListWithTasks_nontransactional
      (fun r => if r.path = "/api/cards/c/task-lists"
        then .ok (.obj [("item", .obj [("id", .str "tl1")])])
        else .error "down")
      [] "c" "n" [⟨"a", none⟩]).2.2
    (.obj [("id", .str "tl1")]) (.str "tl1") "down" [] [] ⟨"a", none⟩
    rfl rfl rfl (by simp) rfl
  exact ⟨h.1, by rw [h.2]; rfl⟩

/-- C3: on the success path, `create_task_list_with_tasks` creates the
checklist with the default position `65535` (the head of the trace) and
then one item per input in input order, the item at 0-based index `i`
requested with position `65535 * (i + 1)` and with `isCompleted`
defaulting to `false` when omitted; it returns the checklist together with
the created items, one per input, in input order. -/
theorem createTaskListWithTasks_success (env : Gateway) (m : TCMap)
    (cardId name : String) (tasks : List TaskItemInput) (tl idv : JVal)
    (items : Nat → JVal)
    (hres : (createTask env m cardId name none).result = .ok tl)
    (hid : tl.get "id" = .ok idv)
    (hok : ∀ p ∈ tasks.enum, ∃ r, env (createItemReq idv.toKey p.2.name
        (65535 * ((p.1 : Int) + 1)) (p.2.isCompleted.getD false)) = .ok r ∧
        r.get "item" = .ok (items p.1)) :
    (createTaskListWithTasks env m cardId name tasks).result =
      .ok (tl, tasks.enum.map (fun p => items p.1)) ∧
    (tasks.enum.map (fun p => items p.1)).length = tasks.length ∧
    (createTaskListWithTasks env m cardId name tasks).trace =
      createTLReq cardId name 65535 :: tasks.enum.map (fun p =>
        createItemReq idv.toKey p.2.name (65535 * ((p.1 : Int) + 1))
          (p.2.isCompleted.getD false)) := by
  have he : tasks.enum = List.enumFrom 0 tasks := rfl
  have hloop := ctlwLoop_ok env tl idv hid items tasks 0 (by rw [← he]; exact hok)
  refine ⟨?_, by simp, ?_⟩
  · simp only [createTaskListWithTasks, hres, hloop, he]
  · simp only [createTaskListWithTasks, hres, hloop]
    rw [createTask_trace, he]
    simp

theorem createTaskListWithTasks_success_witness :
    (createTaskListWithTasks
        (fun r => if r.path = "/api/cards/c/task-lists"
          then .ok (.obj [("item", .obj [("id", .str "tl1")])])
          else .ok (.obj [("item", .obj [("id", .str "it1")])]))
        [] "c" "n" [⟨"a", none⟩, ⟨"b", some true⟩]).result =
      .ok (.obj [("id", .str "tl1")],
        [.obj [("id", .str "it1")], .obj [("id", .str "it1")]]) ∧
    (createTaskListWithTasks
        (fun r => if r.path = "/api/cards/c/task-lists"
          then .ok (.obj [("item", .obj [("id", .str "tl1")])])
          else .ok (.obj [("item", .obj [("id", .str "it1")])]))
        [] "c" "n" [⟨"a", none⟩, ⟨"b", some true⟩]).trace =
      [createTLReq "c" "n" 65535, createItemReq "tl1" "a" 65535 false,
       createItemReq "tl1" "b" 131070 true] := by
  have h := createTaskListWithTasks_success
    (fun r => if r.path = "/api/cards/c/task-lists"
      then .ok (.obj [("item", .obj [("id", .str "tl1")])])
      else .ok (.obj [("item", .obj [("id", .str "it1")])]))
    [] "c" "n" [⟨"a", none⟩, ⟨"b", some true⟩]
    (.obj [("id", .str "tl1")]) (.str "tl1")
    (fun _ => .obj [("id", .str "it1")])
    rfl rfl (by
      intro p hp
      refine ⟨.obj [("item", .obj [("id", .str "it1")])], ?_, rfl⟩
      fin_cases hp <;> rfl)
  exact ⟨by rw [h.1]; rfl, by rw [h.2.2]; rfl⟩

theorem getTask_messages_distinct (id c : String) :
    "Failed to get task list: Failed to get task lists for card " ++ c ≠
      "Failed to get task list: Task list with ID " ++ id ++ " not found in card " ++ c := by
  intro h
  have hl := congrArg String.length h
  rw [String.length_append, String.length_append, String.length_append,
    String.length_append] at hl
  have h1 : ("Failed to get task list: Failed to get task lists for card ").length = 59 := rfl
  have h2 : ("Failed to get task list: Task list with ID ").length = 43 := rfl
  have h3 : (" not found in card ").length = 19 := rfl
  rw [h1, h2, h3] at hl
  omega

/-- C5 (amended: JavaScript `||` makes an explicit *empty-string* card id
fall through to the auxiliary map, and an empty resolved value count as
missing): `get_task_list` uses the explicit card id when given and
non-empty, else the auxiliary map entry; when neither yields a non-empty
card id it raises the (wrapped) missing-context error with an empty
request trace; otherwise it issues exactly the card read and raises a
wrapped fetch error, the collection-unavailable error when the extraction
is not an array, the (provably distinct) not-found error when the scan
misses, and returns the matching checklist when the scan hits. -/
theorem getTask_resolution_spec (env : Gateway) (m : TCMap) (id : String)
    (cardId : Option String) :
    (∀ c, cardId = some c → c ≠ "" → resolveCardId m id cardId = some c) ∧
    (cardId = some "" → resolveCardId m id cardId = resolveCardId m id none) ∧
    (resolveCardId m id cardId = none →
      getTask env m id cardId =
        ⟨.error ("Failed to get task list: Card ID is required to get a task list. Either provide it directly or create the task list first."),
          m, []⟩) ∧
    (∀ c, resolveCardId m id cardId = some c →
      (getTask env m id cardId).trace = [cardReq c] ∧
      (∀ e, env (cardReq c) = .error e →
        (getTask env m id cardId).result = .error ("Failed to get task list: " ++ e)) ∧
      (∀ resp, env (cardReq c) = .ok resp →
        ((∀ xs, extractTaskLists resp ≠ .arr xs) →
          (getTask env m id cardId).result =
            .error ("Failed to get task list: Failed to get task lists for card " ++ c)) ∧
        (∀ xs, extractTaskLists resp = .arr xs →
          (findTL xs id = .ok none →
            (getTask env m id cardId).result =
              .error ("Failed to get task list: Task list with ID " ++ id ++
                " not found in card " ++ c)) ∧
          (∀ tl, findTL xs id = .ok (some tl) →
            (getTask env m id cardId).result = .ok tl))) ∧
      ("Failed to get task list: Failed to get task lists for card " ++ c ≠
        "Failed to get task list: Task list with ID " ++ id ++ " not found in card " ++ c)) := by
  refine ⟨?_, ?_, ?_, ?_⟩
  · intro c hc hne
    subst hc
    simp [resolveCardId, hne]
  · intro hc
    subst hc
    simp [resolveCardId]
  · intro h
    simp [getTask, h]
  · intro c h
    refine ⟨?_, ?_, ?_, getTask_messages_distinct id c⟩
    · simp only [getTask, h]
      repeat first | rfl | split
    · intro e he
      simp [getTask, h, he]
    · intro resp hresp
      constructor
      · intro hnone
        cases hex : extractTaskLists resp with
        | undefined => simp [getTask, h, hresp, hex]
        | null => simp [getTask, h, hresp, hex]
        | bool b => simp [getTask, h, hresp, hex]
        | num n => simp [getTask, h, hresp, hex]
        | str s => simp [getTask, h, hresp, hex]
        | obj fs => simp [getTask, h, hresp, hex]
        | arr xs => exact absurd hex (hnone xs)
      · intro xs hex
        constructor
        · intro hf
          simp [getTask, h, hresp, hex, hf]
        · intro tl hf
          simp [getTask, h, hresp, hex, hf]

/-- C5, the part the source refutes: with an explicitly given empty-string
card id and a map entry for the task list, the operation fetches the
mapped card (`c`), not the given one (`""`) — the effective card id is not
the explicit argument. -/
theorem getTask_empty_cardId_ignored :
    (getTask (fun r => if r.path = "/api/cards/c" then
        .ok (.obj [("included", .obj [("taskLists", .arr [.obj [("id", .str "t")]])])])
        else .error "x")
      [("t", "c")] "t" (some "")).result = .ok (.obj [("id", .str "t")]) ∧
    (getTask (fun r => if r.path = "/api/cards/c" then
        .ok (.obj [("included", .obj [("taskLists", .arr [.obj [("id", .str "t")]])])])
        else .error "x")
      [("t", "c")] "t" (some "")).trace = [cardReq "c"] ∧
    ("c" : String) ≠ "" :=
  ⟨rfl, rfl, by decide⟩

theorem getTask_resolution_spec_witness :
    getTask (fun _ => .error "x") [] "t" none =
      ⟨.error "Failed to get task list: Card ID is required to get a task list. Either provide it directly or create the task list first.",
        [], []⟩ := by
  have h := (getTask_resolution_spec (fun _ => .error "x") [] "t" none).2.2.1 rfl
  exact h

/-- C6: `list_comments` accepts the enveloped-object shape and the
bare-sequence shape, normalizing whichever validates to the ordered list
of validated comment entities, and returns the empty list when the fetch
fails or neither shape validates; it never raises (its embedding returns a
plain list, not an `Except`). -/
theorem getComments_shape_tolerance (env : Gateway) (cardId : String) :
    (∀ e, env (commentsReq cardId) = .error e → (getComments env cardId).1 = []) ∧
    (∀ resp items, env (commentsReq cardId) = .ok resp →
      parseCommentsEnvelope resp = some items → (getComments env cardId).1 = items) ∧
    (∀ xs items, env (commentsReq cardId) = .ok (.arr xs) →
      parseAllComments xs = some items → (getComments env cardId).1 = items) ∧
    (∀ resp, env (commentsReq cardId) = .ok resp →
      parseCommentsEnvelope resp = none →
      (∀ xs, resp = .arr xs → parseAllComments xs = none) →
      (getComments env cardId).1 = []) := by
  refine ⟨?_, ?_, ?_, ?_⟩
  · intro e he
    simp [getComments, he]
  · intro resp items he hp
    simp [getComments, he, hp]
  · intro xs items he hm
    have hp : parseCommentsEnvelope (.arr xs) = none := rfl
    simp [getComments, he, hp, hm]
  · intro resp he hp hbare
    cases resp with
    | arr xs => simp [getComments, he, hp, hbare xs rfl]
    | undefined => simp [getComments, he, hp]
    | null => simp [getComments, he, hp]
    | bool b => simp [getComments, he, hp]
    | num n => simp [getComments, he, hp]
    | str s => simp [getComments, he, hp]
    | obj fs => simp [getComments, he, hp]

theorem getComments_shape_tolerance_witness :
    (getComments (fun _ => .ok (.obj [("items", .arr [.obj
        [("id", .str "c1"), ("type", .str "commentCard"),
         ("data", .obj [("text", .str "hi")]), ("cardId", .str "k"),
         ("userId", .str "u"), ("createdAt", .str "t0"),
         ("updatedAt", .null)]])])) "k").1 =
      [⟨"c1", "hi", "k", "u", "t0", none⟩] ∧
    (getComments (fun _ => .error "down") "k").1 = [] := by
  constructor
  · exact (getComments_shape_tolerance (fun _ => .ok (.obj [("items", .arr [.obj
        [("id", .str "c1"), ("type", .str "commentCard"),
         ("data", .obj [("text", .str "hi")]), ("cardId", .str "k"),
         ("userId", .str "u"), ("createdAt", .str "t0"),
         ("updatedAt", .null)]])])) "k").2.1 _ _ rfl rfl
  · exact (getComments_shape_tolerance (fun _ => .error "down") "k").1 "down" rfl

/-- C7: `list_task_lists` never raises (its embedding returns a plain
list): on a fetch failure, or when the fetched card's extraction yields no
array under either accepted field name (`taskLists`, then `tasks`), it
returns the empty list; when the extraction yields an array, under either
field name, it returns exactly that embedded collection. -/
theorem getTasks_degrades_never_raises (env : Gateway) (cardId : String) :
    (∀ e, env (cardReq cardId) = .error e → (getTasks env cardId).1 = []) ∧
    (∀ resp xs, env (cardReq cardId) = .ok resp → extractTaskLists resp = .arr xs →
      (getTasks env cardId).1 = xs) ∧
    (∀ resp, env (cardReq cardId) = .ok resp → (∀ xs, extractTaskLists resp ≠ .arr xs) →
      (getTasks env cardId).1 = []) ∧
    (∀ xs, env (cardReq cardId) =
        .ok (.obj [("included", .obj [("taskLists", .arr xs)])]) →
      (getTasks env cardId).1 = xs) ∧
    (∀ xs, env (cardReq cardId) =
        .ok (.obj [("included", .obj [("tasks", .arr xs)])]) →
      (getTasks env cardId).1 = xs) := by
  have harr : ∀ resp xs, env (cardReq cardId) = .ok resp → extractTaskLists resp = .arr xs →
      (getTasks env cardId).1 = xs := by
    intro resp xs he hex
    simp [getTasks, he, hex]
  refine ⟨?_, harr, ?_, ?_, ?_⟩
  · intro e he
    simp [getTasks, he]
  · intro resp he hnone
    cases hex : extractTaskLists resp with
    | undefined => simp [getTasks, he, hex]
    | null => simp [getTasks, he, hex]
    | bool b => simp [getTasks, he, hex]
    | num n => simp [getTasks, he, hex]
    | str s => simp [getTasks, he, hex]
    | obj fs => simp [getTasks, he, hex]
    | arr xs => exact absurd hex (hnone xs)
  · intro xs he
    exact harr _ xs he rfl
  · intro xs he
    exact harr _ xs he rfl

theorem getTasks_degrades_never_raises_witness :
    (getTasks (fun _ => .ok (.obj [("included", .obj
        [("tasks", .arr [.str "tl"])])])) "k").1 = [.str "tl"] ∧
    (getTasks (fun _ => .error "down") "k").1 = [] := by
  constructor
  · exact (getTasks_degrades_never_raises (fun _ => .ok (.obj [("included", .obj
      [("tasks", .arr [.str "tl"])])])) "k").2.2.2.2 [.str "tl"] rfl
  · exact (getTasks_degrades_never_raises (fun _ => .error "down") "k").1 "down" rfl

/-- C10: when the gateway fails on the card's comment-collection read,
`get_comment` raises the wrapped not-found error naming the comment id and
the card — a message independent of the failure, so a caller cannot
distinguish a fetch failure from the comment's absence. -/
theorem getComment_fetch_failure_indistinguishable (env : Gateway)
    (id cardId : String) (e : String)
    (h : env (commentsReq cardId) = .error e) :
    (getComment env id cardId).1 =
      .error ("Failed to get comment: Comment with ID " ++ id ++
        " not found in card " ++ cardId) := by
  simp [getComment, getComments, h]

theorem getComment_fetch_failure_indistinguishable_witness :
    (getComment (fun _ => .error "network down") "c1" "card9").1 =
      .error ("Failed to get comment: Comment with ID " ++ "c1" ++
        " not found in card " ++ "card9") :=
  getComment_fetch_failure_indistinguishable
    (fun _ => .error "network down") "c1" "card9" "network down" rfl

/-- C9: the auxiliary task-list-id → card-id map starts empty and, over
any sequence of manager operations, ends holding exactly the entries
recorded by the `create_task_list` calls those operations make (most
recent first, so lookups see the last writer per id); no operation ever
removes an entry (any initial map survives as a suffix), operations that
never reach `create_task_list` record nothing, and a failed creation
records nothing. -/
theorem taskCardIdMap_invariant (env : Gateway) (ops : List Op) :
    runOps env ops [] = ((ops.map (opRecords env)).reverse).flatten ∧
    (∀ m : TCMap, runOps env ops m = ((ops.map (opRecords env)).reverse).flatten ++ m) ∧
    (∀ op : Op, reachesCreateTaskList op = false → opRecords env op = []) ∧
    (∀ c n p, ((createTask env [] c n p).result.isOk = false) →
      (createTask env [] c n p).tmap = []) := by
  refine ⟨by simpa using runOps_shift env ops [], runOps_shift env ops, ?_, ?_⟩
  · intro op h
    cases op <;> first
      | rfl
      | (exfalso; simp [reachesCreateTaskList] at h)
  · intro c n p h
    cases hq : env (createTLReq c n (p.getD 65535)) with
    | error e => simp [createTask, hq]
    | ok response =>
      cases h2 : response.get "item" with
      | error e => simp [createTask, hq, h2]
      | ok item =>
        by_cases ht : item.truthy
        · cases h3 : item.get "id" with
          | error e => simp [createTask, hq, h2, ht, h3]
          | ok idv =>
            by_cases hi : idv.truthy
            · exfalso
              simp [createTask, hq, h2, ht, h3, hi, Except.isOk, Except.toBool] at h
            · simp [createTask, hq, h2, ht, h3, hi]
        · simp [createTask, hq, h2, ht]

theorem taskCardIdMap_invariant_witness :
    runOps (fun r => if r.method = "POST"
        then .ok (.obj [("item", .obj [("id", .str "t1")])])
        else .ok .null)
      [.opCreateTask "c" "n" none, .opDeleteTask "t1", .opGetComments "c"] [] =
      [("t1", "c")] := by
  have h := (taskCardIdMap_invariant (fun r => if r.method = "POST"
      then .ok (.obj [("item", .obj [("id", .str "t1")])])
      else .ok .null)
    [.opCreateTask "c" "n" none, .opDeleteTask "t1", .opGetComments "c"]).1
  rw [h]
  rfl

/-- C8 (amended): the wrap-and-validate policy is not uniform. The create
and get operations of both modules, and the comment update/delete, wrap a
gateway failure with an operation-specific prefix and the original message
appended; but `update_task_list`, `delete_task_list`, `update_task` and
`delete_task` surface gateway failures unwrapped, and shape validation
guards only `update_task_list` and the comment create/update paths —
the other operations hand back the raw response item. -/
theorem error_wrapping_policy (env : Gateway) (m : TCMap) (id c n tx : String)
    (p : Option Int) (ic : Option Bool) (oTL : UpdateTLOpts) (oIt : UpdateItemOpts)
    (tasks : List TaskItemInput) (e : String) :
    (env (createTLReq c n (p.getD 65535)) = .error e →
      (createTask env m c n p).result = .error ("Failed to create task list: " ++ e)) ∧
    (env (createItemReq id n (p.getD 65535) (ic.getD false)) = .error e →
      (createTaskInTaskList env id n p ic).1 =
        .error ("Failed to create task in task list: " ++ e)) ∧
    (env (createTLReq c n 65535) = .error e →
      (createTaskListWithTasks env m c n tasks).result =
        .error ("Failed to create task list with tasks: " ++
          ("Failed to create task list: " ++ e))) ∧
    (env ⟨"/api/cards/" ++ c ++ "/comments", "POST",
        some (.obj [("text", .str tx)])⟩ = .error e →
      (createComment env c tx).1 = .error ("Failed to create comment: " ++ e)) ∧
    (env ⟨"/api/comments/" ++ id, "PATCH",
        some (.obj [("text", .str tx)])⟩ = .error e →
      (updateComment env id (some tx)).1 = .error ("Failed to update comment: " ++ e)) ∧
    (env ⟨"/api/comments/" ++ id, "DELETE", none⟩ = .error e →
      (deleteComment env id).1 = .error ("Failed to delete comment: " ++ e)) ∧
    (env ⟨"/api/task-lists/" ++ id, "PATCH", some (updateTLBody oTL)⟩ = .error e →
      (updateTask env id oTL).1 = .error e) ∧
    (env ⟨"/api/task-lists/" ++ id, "DELETE", none⟩ = .error e →
      (deleteTask env id).1 = .error e) ∧
    (env ⟨"/api/tasks/" ++ id, "PATCH", some (updateItemBody oIt)⟩ = .error e →
      (updateTaskInTaskList env id oIt).1 = .error e) ∧
    (env ⟨"/api/tasks/" ++ id, "DELETE", none⟩ = .error e →
      (deleteTaskInTaskList env id).1 = .error e) ∧
    (∀ resp, env ⟨"/api/task-lists/" ++ id, "PATCH", some (updateTLBody oTL)⟩ = .ok resp →
      (updateTask env id oTL).1 =
        (match parseTaskResponse resp with
         | some t => .ok t
         | none => .error "ZodError")) ∧
    (∀ resp, env ⟨"/api/cards/" ++ c ++ "/comments", "POST",
        some (.obj [("text", .str tx)])⟩ = .ok resp →
      (createComment env c tx).1 =
        (match parseCommentResponse resp with
         | some cm => .ok cm
         | none => .error ("Failed to create comment: ZodError"))) := by
  refine ⟨?_, ?_, ?_, ?_, ?_, ?_, ?_, ?_, ?_, ?_, ?_, ?_⟩
  · intro h
    simp [createTask, h]
  · intro h
    simp [createTaskInTaskList, h]
  · intro h
    have hc := createTask_error env m c n none e (by simpa using h)
    simp [createTaskListWithTasks, hc]
  · intro h
    simp [createComment, h]
  · intro h
    simp [updateComment, h]
  · intro h
    simp [deleteComment, h]
  · intro h
    simp [updateTask, h]
  · intro h
    simp [deleteTask, h]
  · intro h
    simp [updateTaskInTaskList, h]
  · intro h
    simp [deleteTaskInTaskList, h]
  · intro resp h
    cases hp : parseTaskResponse resp <;> simp [updateTask, h, hp]
  · intro resp h
    cases hp : parseCommentResponse resp <;> simp [createComment, h, hp]

/-- C8, the part the source refutes: `update_task_list` has no
`try`/`catch`, so a gateway failure surfaces with exactly the original
message — no operation-specific prefix is prepended. -/
theorem updateTask_unwrapped_gateway_error :
    (updateTask (fun _ => .error "boom") "x" ⟨none, none⟩).1 = .error "boom" := rfl

theorem error_wrapping_policy_witness :
    (createTask (fun _ => .error "boom") [] "c" "n" none).result =
      .error ("Failed to create task list: " ++ "boom") ∧
    (deleteTask (fun _ => .error "boom") "x").1 = .error "boom" := by
  have h := error_wrapping_policy (fun _ => .error "boom") [] "x" "c" "n" "t"
    none none ⟨none, none⟩ ⟨none, none, none⟩ [] "boom"
  exact ⟨h.1 rfl, h.2.2.2.2.2.2.2.1 rfl⟩
